import Mathlib

/-!
Verification of the trenddit repository against its specification.

The Python sources are shallowly embedded: pure functions become Lean
functions over `Rat` / `Nat` / `Int` / `String`; calls into external
libraries (VADER's `polarity_scores`, `dateutil.parser.isoparse`,
`datetime.strftime`, the sentence-transformers encoder, the Supabase
client) become explicit parameters, and the observable effects of
`fetch_and_store` (store reads/writes, prints, the returned value,
escaping exceptions) are collected in an explicit trace record.
-/

namespace Trenddit

/-! ### nlp/sentiment.py -/

/-- The thresholding applied to the VADER compound score in
`analyze_sentiment` (src/nlp/sentiment.py lines 22-28). -/
def sentimentLabel (compound : Rat) : String :=
  if (5 : Rat)/100 ≤ compound then "positive"
  else if compound ≤ -(5 : Rat)/100 then "negative"
  else "neutral"

/-- Function `analyze_sentiment` (src/nlp/sentiment.py).  `polarity` abstracts the
external `SentimentIntensityAnalyzer.polarity_scores(...)["compound"]`
value; an empty text short-circuits to `(0.0, "neutral")`. -/
def analyze_sentiment (polarity : String → Rat) (text : String) : Rat × String :=
  if text = "" then (0, "neutral")
  else
    let compound := polarity text
    (compound, sentimentLabel compound)

/-! ### app/utils.py -/

/-- Function `pretty_time_ago` (src/app/utils.py) for a `None`-or-string timestamp.
`parse` abstracts `dateutil.parser.isoparse` (returning the parsed instant
as seconds, `none` on a parse error), `strf` abstracts
`dt.strftime("%Y-%m-%d %H:%M UTC")`, and `now` is the current instant in
seconds; the `seconds` difference is whole seconds. -/
def pretty_time_ago (parse : String → Option Int) (strf : Int → String)
    (now : Int) (ts : Option String) : String :=
  match ts with
  | none => ""
  | some s =>
    if s = "" then ""
    else
      match parse s with
      | none => s
      | some dtv =>
        let seconds : Int := now - dtv
        if seconds < 60 then toString seconds ++ "s ago"
        else if seconds < 3600 then toString (seconds.toNat / 60) ++ "m ago"
        else if seconds < 86400 then toString (seconds.toNat / 3600) ++ "h ago"
        else strf dtv

/-! ### collector/reddit_collector.py -/

/-- A fetched Reddit submission (the fields `fetch_and_store` reads). -/
structure Submission where
  subId : String
  title : String
  selftext : String
  author : Option String
  url : String
  score : Int
  createdUtc : Int
  subreddit : String
  numComments : Nat
deriving DecidableEq

/-- A row of the `posts` table.  `created_at` holds the submission's UTC
timestamp (an ISO string in the code) and `subreddit` / `num_comments`
are the two entries of the JSON `metadata` column; the sentiment and
embedding columns are filled by the NLP pass. -/
structure PostRecord where
  id : String
  source : String
  source_id : String
  keyword : String
  title : String
  body : String
  author : Option String
  url : String
  score : Int
  created_at : Int
  subreddit : String
  num_comments : Nat
  sentiment_score : Option Rat
  sentiment_label : Option String
  embedding : Option (List Rat)
deriving DecidableEq

/-- The record built for one fetched submission (reddit_collector.py lines
44-63): the primary key is `"reddit:" ++ submission.id`, and the
sentiment/embedding columns are not yet set. -/
def mkData (keyword : String) (s : Submission) : PostRecord :=
  { id := "reddit:" ++ s.subId
    source := "reddit"
    source_id := s.subId
    keyword := keyword
    title := s.title
    body := s.selftext
    author := s.author
    url := s.url
    score := s.score
    created_at := s.createdUtc
    subreddit := s.subreddit
    num_comments := s.numComments
    sentiment_score := none
    sentiment_label := none
    embedding := none }

/-- External effects of `fetch_and_store`: the VADER compound score, the
`embed_text` call (which may raise, e.g. when the sentence-transformers
model cannot load, or return the value stored in the `embedding` column),
and whether the Supabase existence query / bulk insert raise. -/
structure Env where
  polarity : String → Rat
  embed : String → Except String (Option (List Rat))
  queryFails : Bool
  insertFails : Bool

/-- The text handed to NLP for a post:
`(p.get("title") or "") + "\n" + (p.get("body") or "")`. -/
def enrichText (p : PostRecord) : String := p.title ++ "\n" ++ p.body

/-- The NLP pass (reddit_collector.py lines 72-90): each post in order
gets its sentiment score/label and then its embedding; an exception from
`embed_text` aborts the whole pass (there is no handler around it in the
loop).  Returns the texts handed to the embedder paired with the enriched
posts, or the escaping error. -/
def enrichAll (env : Env) :
    List PostRecord → List String × Except String (List PostRecord)
  | [] => ([], Except.ok [])
  | p :: ps =>
    let text := enrichText p
    let sl := analyze_sentiment env.polarity text
    match env.embed text with
    | Except.error e => ([text], Except.error e)
    | Except.ok emb =>
      let p2 := { p with sentiment_score := some sl.1,
                         sentiment_label := some sl.2,
                         embedding := emb }
      let rest := enrichAll env ps
      (text :: rest.1, rest.2.map (fun qs => p2 :: qs))

/-- Modelled from the spec: the `IngestResult{fetched, inserted, skipped}`
value the spec's contract says `ingest` returns.  The code defines no such
type; it is stated here only to compare the spec's contract with the
code's actual return value. -/
structure IngestResult where
  fetched : Nat
  inserted : Nat
  skipped : Nat
deriving DecidableEq

/-- How a call to `fetch_and_store` ends: an exception escapes to the
caller, or the function returns (its Python return value). -/
inductive IngestOutcome where
  | raised (msg : String)
  | returned
deriving DecidableEq

/-- Observable trace of one `fetch_and_store` call: how it ended, the
value it returned, the number of existence queries and insert calls
issued against the `posts` table, the rows actually inserted, the final
set of ids in the store, the number of "Skipping existing post" lines and
of "Error during batch database operation" lines printed, and the texts
handed to the embedder. -/
structure IngestTrace where
  outcome : IngestOutcome
  returnValue : Option IngestResult
  existQueries : Nat
  insertCalls : Nat
  insertedRows : List PostRecord
  store : List String
  skipPrints : Nat
  errorPrints : Nat
  embeddedTexts : List String
deriving DecidableEq

/-- The deduplication step of `fetch_and_store` (reddit_collector.py lines
95-110), extracted: one bulk `select("id").in_("id", ids)` existence
query against the store followed by an in-memory filter.  Returns the
candidates not already present, paired with the number of existence
queries issued. -/
def filter_new (store : List String) (candidates : List String) :
    List String × Nat :=
  let existing_ids := store.filter (fun i => candidates.contains i)
  (candidates.filter (fun i => ! existing_ids.contains i), 1)

/-- Function `fetch_and_store` (reddit_collector.py lines 30-135) after the Reddit
search returned `subs`, as a trace over an abstract store holding the ids
of the `posts` table.  The Python function returns `None` on every path
(`returnValue := none`); the counts are only printed.  A raise from
`embed_text` escapes before any store access; exceptions from the
existence query or the insert are caught by the surrounding handler,
which prints and falls through to a normal return.  The optional
embeddings-table upsert touches a separate table inside its own non-fatal
handler and does not affect the `posts` store. -/
def fetchAndStore (env : Env) (store : List String) (keyword : String)
    (subs : List Submission) : IngestTrace :=
  let posts_fetched := subs.map (mkData keyword)
  if posts_fetched.isEmpty then
    { outcome := .returned, returnValue := none, existQueries := 0,
      insertCalls := 0, insertedRows := [], store := store, skipPrints := 0,
      errorPrints := 0, embeddedTexts := [] }
  else
    let enr := enrichAll env posts_fetched
    match enr.2 with
    | Except.error e =>
      { outcome := .raised e, returnValue := none, existQueries := 0,
        insertCalls := 0, insertedRows := [], store := store, skipPrints := 0,
        errorPrints := 0, embeddedTexts := enr.1 }
    | Except.ok enriched =>
      if env.queryFails then
        { outcome := .returned, returnValue := none, existQueries := 1,
          insertCalls := 0, insertedRows := [], store := store,
          skipPrints := 0, errorPrints := 1, embeddedTexts := enr.1 }
      else
        let ids_to_check := enriched.map (fun p => p.id)
        let existing_ids := store.filter (fun i => ids_to_check.contains i)
        let posts_to_insert :=
          enriched.filter (fun p => ! existing_ids.contains p.id)
        let skips := enriched.length - posts_to_insert.length
        if posts_to_insert.isEmpty then
          { outcome := .returned, returnValue := none, existQueries := 1,
            insertCalls := 0, insertedRows := [], store := store,
            skipPrints := skips, errorPrints := 0, embeddedTexts := enr.1 }
        else if env.insertFails then
          { outcome := .returned, returnValue := none, existQueries := 1,
            insertCalls := 1, insertedRows := [], store := store,
            skipPrints := skips, errorPrints := 1, embeddedTexts := enr.1 }
        else
          { outcome := .returned, returnValue := none, existQueries := 1,
            insertCalls := 1, insertedRows := posts_to_insert,
            store := store ++ posts_to_insert.map (fun p => p.id),
            skipPrints := skips, errorPrints := 0, embeddedTexts := enr.1 }

/-! ### app/streamlit_app.py : sentiment timeline (lines 975-988) -/

/-- Bucket width in seconds: 15-minute buckets when the query window is at
most 24 hours (`if hours <= 24`), else 1-hour buckets. -/
def bucketWidth (hours : Nat) : Nat := if hours ≤ 24 then 900 else 3600

/-- Coercion `pd.to_numeric(df["sentiment_score"], errors="coerce").fillna(0)`:
a missing sentiment score becomes 0 before resampling.  A post is a
`(created_at, sentiment_score)` pair with the timestamp in seconds. -/
def scoresFilled (posts : List (Nat × Option Rat)) : List (Nat × Rat) :=
  posts.map (fun p => (p.1, p.2.getD 0))

/-- The posts falling in bucket `b` of width `w`: `resample` bins a
timestamp `t` into the wall-clock-aligned window `t / w`. -/
def bucketPosts (w : Nat) (ps : List (Nat × Rat)) (b : Nat) :
    List (Nat × Rat) :=
  ps.filter (fun p => p.1 / w == b)

/-- Volume `.count()` of a bucket. -/
def bucketVolume (w : Nat) (ps : List (Nat × Rat)) (b : Nat) : Nat :=
  (bucketPosts w ps b).length

/-- Sum of the (filled) scores of a bucket. -/
def bucketSum (w : Nat) (ps : List (Nat × Rat)) (b : Nat) : Rat :=
  ((bucketPosts w ps b).map Prod.snd).sum

/-- Mean `.mean()` of a bucket; `none` for an empty bucket (the NaN that
`ffill` later replaces). -/
def bucketMean (w : Nat) (ps : List (Nat × Rat)) (b : Nat) : Option Rat :=
  if bucketVolume w ps b = 0 then none
  else some (bucketSum w ps b / (bucketVolume w ps b : Rat))

/-- The consecutive buckets from the earliest to the latest post, as
`resample` generates them over the indexed frame. -/
def bucketRange (w : Nat) (ps : List (Nat × Rat)) : List Nat :=
  match ps.map (fun p => p.1 / w) with
  | [] => []
  | b :: bs =>
    List.range' (bs.foldl Nat.min b) (bs.foldl Nat.max b + 1 - bs.foldl Nat.min b)

/-- Forward fill `.ffill()` over the resampled series: an empty bucket repeats the last
seen mean (`last` is the running forward-fill value) and reports volume 0. -/
def ffillSeries (w : Nat) (ps : List (Nat × Rat)) (last : Rat) :
    List Nat → List (Nat × Rat × Nat)
  | [] => []
  | b :: bs =>
    match bucketMean w ps b with
    | some m => (b, m, bucketVolume w ps b) :: ffillSeries w ps m bs
    | none => (b, last, 0) :: ffillSeries w ps last bs

/-- The timeline frame (streamlit_app.py lines 975-988): one row
`(bucket, avg_sentiment, volume)` per bucket between the earliest and
latest post. -/
def sentimentTimeline (hours : Nat) (posts : List (Nat × Option Rat)) :
    List (Nat × Rat × Nat) :=
  let w := bucketWidth hours
  let ps := scoresFilled posts
  ffillSeries w ps 0 (bucketRange w ps)

/-! ### app/streamlit_app.py : topic clusters (lines 1070-1145) -/

/-- How the topic-clusters block ends. -/
inductive ClusterReport where
  | noEmbeddings
  | insufficient
  | clustered (k : Nat)
  | failed
deriving DecidableEq

/-- Cluster count `n_clusters = min(6, max(2, E.shape[0] // 10))`. -/
def nClusters (n : Nat) : Nat := min 6 (max 2 (n / 10))

/-- Outcome of the topic-clusters block for a frame of `n` posts (every
row of a nonempty frame contributes an embedding row, invalid values
falling back to a zero vector).  `noEmbeddings` is the `else` branch for
an empty frame, `insufficient` is `st.write("Not enough data to form
clusters.")` behind the guard `n_clusters < 2`, and `failed` is the
`st.warning("Clustering failed: ...")` handler, reached when
`KMeans.fit` raises because there are fewer samples than clusters. -/
def topicClusters (n : Nat) : ClusterReport :=
  if n = 0 then ClusterReport.noEmbeddings
  else if nClusters n < 2 then ClusterReport.insufficient
  else if n < nClusters n then ClusterReport.failed
  else ClusterReport.clustered (nClusters n)

/-! ### Concrete sample data for closed-instance runs -/

/-- An environment whose embedder always succeeds and whose store
operations never raise. -/
def envOk : Env :=
  { polarity := fun _ => 0, embed := fun _ => Except.ok (some [1]),
    queryFails := false, insertFails := false }

/-- An environment whose embedder always raises (model unavailable). -/
def envNoModel : Env :=
  { polarity := fun _ => 0,
    embed := fun _ => Except.error "ModelUnavailable",
    queryFails := false, insertFails := false }

/-- An environment whose store existence query raises. -/
def envQueryDown : Env := { envOk with queryFails := true }

/-- An environment whose bulk insert raises. -/
def envInsertDown : Env := { envOk with insertFails := true }

/-- A minimal submission with a given source id. -/
def subOf (i : String) : Submission :=
  { subId := i, title := "t" ++ i, selftext := "", author := none,
    url := "u", score := 0, createdUtc := 0, subreddit := "r",
    numComments := 0 }

end Trenddit

open Trenddit

/-- Characterisation of the three label branches of `sentimentLabel`. -/
theorem sentimentLabel_spec (c : Rat) :
    (sentimentLabel c = "positive" ↔ (5 : Rat)/100 ≤ c) ∧
    (sentimentLabel c = "negative" ↔ c ≤ -(5 : Rat)/100) ∧
    (sentimentLabel c = "neutral" ↔ (-(5 : Rat)/100 < c ∧ c < (5 : Rat)/100)) := by
  unfold sentimentLabel
  split_ifs with h1 h2
  · exact ⟨iff_of_true rfl h1,
      iff_of_false (by decide) (fun hc => by linarith),
      iff_of_false (by decide) (fun hc => by linarith [hc.2])⟩
  · exact ⟨iff_of_false (by decide) h1,
      iff_of_true rfl h2,
      iff_of_false (by decide) (fun hc => absurd h2 (not_le.mpr hc.1))⟩
  · exact ⟨iff_of_false (by decide) h1,
      iff_of_false (by decide) h2,
      iff_of_true rfl ⟨lt_of_not_le h2, lt_of_not_le h1⟩⟩

/-- C5: `analyze_sentiment` yields `(0, "neutral")` on empty text; otherwise
it returns the compound score labelled "positive" iff `0.05 ≤ c`,
"negative" iff `c ≤ -0.05` and "neutral" iff `-0.05 < c < 0.05` (so exactly
`0.05` is positive and exactly `-0.05` is negative), and when the external
compound score lies in `[-1, 1]` so does the returned score. -/
theorem C5_sentiment_thresholds (polarity : String → Rat) (text : String) :
    (text = "" → analyze_sentiment polarity text = (0, "neutral")) ∧
    (text ≠ "" →
      (analyze_sentiment polarity text).1 = polarity text ∧
      ((analyze_sentiment polarity text).2 = "positive" ↔
        (5 : Rat)/100 ≤ polarity text) ∧
      ((analyze_sentiment polarity text).2 = "negative" ↔
        polarity text ≤ -(5 : Rat)/100) ∧
      ((analyze_sentiment polarity text).2 = "neutral" ↔
        (-(5 : Rat)/100 < polarity text ∧ polarity text < (5 : Rat)/100))) ∧
    ((-1 ≤ polarity text ∧ polarity text ≤ 1) →
      -1 ≤ (analyze_sentiment polarity text).1 ∧
        (analyze_sentiment polarity text).1 ≤ 1) := by
  refine ⟨fun h => by simp [analyze_sentiment, h], fun h => ?_, fun hb => ?_⟩
  · simp only [analyze_sentiment, if_neg h]
    exact ⟨by trivial, (sentimentLabel_spec (polarity text)).1,
      (sentimentLabel_spec (polarity text)).2.1,
      (sentimentLabel_spec (polarity text)).2.2⟩
  · by_cases h : text = ""
    · simp only [analyze_sentiment, if_pos h]
      exact ⟨by norm_num, by norm_num⟩
    · simp only [analyze_sentiment, if_neg h]
      exact hb

/-- Witness for C5 at concrete inputs: empty text, a text scored exactly
`0.05`, and the range bound at a score of `1`. -/
theorem C5_sentiment_thresholds_witness :
    analyze_sentiment (fun _ => (5 : Rat)/100) "" = (0, "neutral") ∧
    (analyze_sentiment (fun _ => (5 : Rat)/100) "good").2 = "positive" ∧
    (-1 ≤ (analyze_sentiment (fun _ => (1 : Rat)) "good").1 ∧
      (analyze_sentiment (fun _ => (1 : Rat)) "good").1 ≤ 1) := by
  refine ⟨(C5_sentiment_thresholds (fun _ => (5 : Rat)/100) "").1 rfl, ?_, ?_⟩
  · exact ((C5_sentiment_thresholds (fun _ => (5 : Rat)/100) "good").2.1
      (by decide)).2.1.mpr (by norm_num)
  · exact (C5_sentiment_thresholds (fun _ => (1 : Rat)) "good").2.2
      (by norm_num)

/-- C10: `pretty_time_ago` is total: a `None`/empty timestamp yields `""`,
an unparseable string is returned unchanged, and a parseable timestamp
yields `"<n>s ago"` / `"<n>m ago"` / `"<n>h ago"` for ages under 60 s,
1 h, 24 h respectively and the absolute `strftime` date for ages of a day
or more. -/
theorem C10_pretty_time_ago (parse : String → Option Int) (strf : Int → String)
    (now : Int) :
    pretty_time_ago parse strf now none = "" ∧
    pretty_time_ago parse strf now (some "") = "" ∧
    (∀ s : String, s ≠ "" → parse s = none →
      pretty_time_ago parse strf now (some s) = s) ∧
    (∀ (s : String) (t : Int), s ≠ "" → parse s = some t →
      (now - t < 60 →
        pretty_time_ago parse strf now (some s) = toString (now - t) ++ "s ago") ∧
      (60 ≤ now - t → now - t < 3600 →
        pretty_time_ago parse strf now (some s) =
          toString ((now - t).toNat / 60) ++ "m ago") ∧
      (3600 ≤ now - t → now - t < 86400 →
        pretty_time_ago parse strf now (some s) =
          toString ((now - t).toNat / 3600) ++ "h ago") ∧
      (86400 ≤ now - t →
        pretty_time_ago parse strf now (some s) = strf t)) := by
  refine ⟨rfl, rfl, fun s hs hp => ?_, fun s t hs hp => ?_⟩
  · simp [pretty_time_ago, if_neg hs, hp]
  · refine ⟨fun h1 => ?_, fun h1 h2 => ?_, fun h1 h2 => ?_, fun h1 => ?_⟩ <;>
      simp only [pretty_time_ago, if_neg hs, hp] <;> split_ifs <;>
      first
      | rfl
      | omega

/-- Witness for C10 at a concrete clock: an unparseable string comes back
unchanged and a timestamp 90 seconds old renders as `"1m ago"`. -/
theorem C10_pretty_time_ago_witness :
    pretty_time_ago (fun s => if s = "t0" then some 10 else none)
        (fun _ => "2026-01-01 00:00 UTC") 100 (some "oops") = "oops" ∧
    pretty_time_ago (fun s => if s = "t0" then some 10 else none)
        (fun _ => "2026-01-01 00:00 UTC") 100 (some "t0") = "1m ago" := by
  constructor
  · exact (C10_pretty_time_ago (fun s => if s = "t0" then some 10 else none)
      (fun _ => "2026-01-01 00:00 UTC") 100).2.2.1 "oops" (by decide) (by decide)
  · exact ((C10_pretty_time_ago (fun s => if s = "t0" then some 10 else none)
      (fun _ => "2026-01-01 00:00 UTC") 100).2.2.2 "t0" 10 (by decide)
      (by decide)).2.1 (by decide) (by decide)

/-- A successful embedder makes the NLP pass succeed and preserve every
post's id, in order. -/
theorem enrichAll_ok (env : Env) (hem : ∀ t, ∃ v, env.embed t = Except.ok v) :
    ∀ ps : List PostRecord, ∃ qs, (enrichAll env ps).2 = Except.ok qs ∧
      qs.map (fun p => p.id) = ps.map (fun p => p.id) := by
  intro ps
  induction ps with
  | nil => exact ⟨[], rfl, rfl⟩
  | cons p ps ih =>
    obtain ⟨v, hv⟩ := hem (enrichText p)
    obtain ⟨qs, hqs, hids⟩ := ih
    refine ⟨{ p with
        sentiment_score := some (analyze_sentiment env.polarity (enrichText p)).1,
        sentiment_label := some (analyze_sentiment env.polarity (enrichText p)).2,
        embedding := v } :: qs, ?_, ?_⟩
    · simp [enrichAll, hv, hqs, Except.map]
    · simp [hids]

/-- Mapping ids over the dedup filter of the write phase gives the
id-level filter against the whole store: a post survives exactly when its
id is not already stored. -/
theorem insert_filter_ids (store : List String) (qs : List PostRecord) :
    (qs.filter (fun p =>
        ! (store.filter (fun i =>
            (qs.map (fun p => p.id)).contains i)).contains p.id)).map
        (fun p => p.id) =
      (qs.map (fun p => p.id)).filter (fun i => ! store.contains i) := by
  rw [List.filter_map]
  congr 1
  apply List.filter_congr
  intro p hp
  have hmem : ((qs.map (fun p => p.id)).contains p.id) = true := by
    simp [List.contains, List.elem_iff]
    exact ⟨p, hp, rfl⟩
  simp only [Function.comp]
  congr 1
  simp [List.contains, List.elem_iff, List.mem_filter, hmem]
  exact fun _ => ⟨p, hp, rfl⟩

/-- On a run where the embedder succeeds and neither store operation
raises, the trace of `fetch_and_store` is determined by the candidate
ids: the rows inserted are exactly the fetched posts whose ids are not
already stored, the store grows by those ids, one skip line is printed
per remaining post, the return value is `None`, and exactly one
existence query is issued when anything was fetched. -/
theorem fetchAndStore_success (env : Env) (store : List String)
    (keyword : String) (subs : List Submission)
    (hem : ∀ t, ∃ v, env.embed t = Except.ok v)
    (hq : env.queryFails = false) (hi : env.insertFails = false) :
    (fetchAndStore env store keyword subs).outcome = IngestOutcome.returned ∧
    (fetchAndStore env store keyword subs).returnValue = none ∧
    (fetchAndStore env store keyword subs).insertedRows.map (fun p => p.id) =
      (subs.map (fun s => "reddit:" ++ s.subId)).filter
        (fun i => ! store.contains i) ∧
    (fetchAndStore env store keyword subs).store =
      store ++ (subs.map (fun s => "reddit:" ++ s.subId)).filter
        (fun i => ! store.contains i) ∧
    (fetchAndStore env store keyword subs).skipPrints =
      subs.length - (fetchAndStore env store keyword subs).insertedRows.length ∧
    (subs = [] → (fetchAndStore env store keyword subs).existQueries = 0) ∧
    (subs ≠ [] → (fetchAndStore env store keyword subs).existQueries = 1) := by
  cases subs with
  | nil => simp [fetchAndStore]
  | cons s0 rest =>
    obtain ⟨qs, hqs, hids⟩ :=
      enrichAll_ok env hem ((s0 :: rest).map (mkData keyword))
    have hQ : qs.map (fun p => p.id) =
        (s0 :: rest).map (fun s => "reddit:" ++ s.subId) := by
      rw [hids, List.map_map]; rfl
    have hlen : qs.length = (s0 :: rest).length := by
      have h2 := congrArg List.length hQ
      simpa using h2
    have hfilter := insert_filter_ids store qs
    rw [hQ] at hfilter
    have hne : ((s0 :: rest).map (mkData keyword)).isEmpty = false := rfl
    simp only [fetchAndStore, hne, Bool.false_eq_true, if_false, hqs, hq, hi,
      hQ]
    split_ifs with hins
    · have hnil := List.isEmpty_iff.mp hins
      have hfe : ((s0 :: rest).map (fun s => "reddit:" ++ s.subId)).filter
          (fun i => ! store.contains i) = [] := by
        rw [← hfilter, hnil]; rfl
      refine ⟨rfl, rfl, by rw [hfe]; rfl, by rw [hfe, List.append_nil], ?_,
        by simp, fun _ => rfl⟩
      rw [hnil, hlen]
    · refine ⟨rfl, rfl, hfilter, by rw [hfilter], ?_, by simp, fun _ => rfl⟩
      simp [hlen]

/-- C2: the deduplication step selects exactly the candidates whose ids
are not already in the store (and only those): membership both ways, so
`N - M` of `N` candidates survive when `M` of them are already stored;
it issues exactly one bulk existence query, and inside `fetch_and_store`
exactly one existence query is issued however many posts were fetched. -/
theorem C2_dedup_one_query (store candidates : List String) :
    (∀ i, i ∈ (filter_new store candidates).1 ↔
      (i ∈ candidates ∧ i ∉ store)) ∧
    (filter_new store candidates).1.length =
      candidates.length -
        (candidates.filter (fun i => store.contains i)).length ∧
    (filter_new store candidates).2 = 1 ∧
    (∀ (env : Env) (keyword : String) (subs : List Submission),
      (∀ t, ∃ v, env.embed t = Except.ok v) → env.queryFails = false →
      env.insertFails = false → subs ≠ [] →
      (fetchAndStore env store keyword subs).existQueries = 1) := by
  have hfe : (filter_new store candidates).1 =
      candidates.filter (fun i => ! store.contains i) := by
    simp only [filter_new]
    apply List.filter_congr
    intro x hx
    have hxc : candidates.contains x = true := by
      simp [List.contains, List.elem_iff]
      exact hx
    congr 1
    simp [List.contains, List.elem_iff, List.mem_filter, hxc]
    exact fun _ => hx
  refine ⟨?_, ?_, rfl, ?_⟩
  · intro i
    rw [hfe]
    simp [List.mem_filter, List.contains, List.elem_iff]
  · rw [hfe]
    have hsplit := List.length_eq_length_filter_add
      (l := candidates) (fun i => store.contains i)
    omega
  · intro env keyword subs hem hq hi hne
    exact (fetchAndStore_success env store keyword subs hem hq hi).2.2.2.2.2.2
      hne

/-- Witness for C2 at a concrete store and batch: one existence query for
a two-post batch, and the new candidate is selected. -/
theorem C2_dedup_one_query_witness :
    (fetchAndStore envOk ["reddit:a"] "kw"
      [subOf "a", subOf "b"]).existQueries = 1 ∧
    "reddit:b" ∈ (filter_new ["reddit:a"] ["reddit:a", "reddit:b"]).1 := by
  constructor
  · exact (C2_dedup_one_query ["reddit:a"] ["reddit:a", "reddit:b"]).2.2.2
      envOk "kw" [subOf "a", subOf "b"] (fun t => ⟨some [1], rfl⟩) rfl rfl
      (by simp)
  · exact ((C2_dedup_one_query ["reddit:a"]
      ["reddit:a", "reddit:b"]).1 "reddit:b").mpr ⟨by simp, by simp⟩

/-- C1 counterexample: in the spec's end-to-end scenario — posts `a`, `b`,
`c` fetched with `b` already stored — `fetch_and_store` inserts the two
new posts and skips one, but its return value is `None`, not an
`IngestResult{fetched: 3, inserted: 2, skipped: 1}`. -/
theorem C1_counterexample :
    (fetchAndStore envOk ["reddit:b"] "kw"
      [subOf "a", subOf "b", subOf "c"]).returnValue = none ∧
    (∀ r : IngestResult, (fetchAndStore envOk ["reddit:b"] "kw"
      [subOf "a", subOf "b", subOf "c"]).returnValue ≠ some r) ∧
    (fetchAndStore envOk ["reddit:b"] "kw"
      [subOf "a", subOf "b", subOf "c"]).insertedRows.map (fun p => p.id) =
      ["reddit:a", "reddit:c"] ∧
    (fetchAndStore envOk ["reddit:b"] "kw"
      [subOf "a", subOf "b", subOf "c"]).skipPrints = 1 := by
  refine ⟨rfl, fun r => ?_, rfl, rfl⟩
  intro hr
  rw [show (fetchAndStore envOk ["reddit:b"] "kw"
    [subOf "a", subOf "b", subOf "c"]).returnValue = none from rfl] at hr
  cases hr

/-- C1 amended: `fetch_and_store` computes the three counts but only
prints them and returns `None`: on a run where enrichment and the store
operations succeed, the rows inserted are exactly the new
(not-already-present) subset of the fetched posts, the number of skip
lines printed is fetched − inserted, and no `IngestResult` is returned. -/
theorem C1_returns_none_counts_printed (env : Env) (store : List String)
    (keyword : String) (subs : List Submission)
    (hem : ∀ t, ∃ v, env.embed t = Except.ok v)
    (hq : env.queryFails = false) (hi : env.insertFails = false) :
    (fetchAndStore env store keyword subs).returnValue = none ∧
    (∀ r : IngestResult,
      (fetchAndStore env store keyword subs).returnValue ≠ some r) ∧
    (fetchAndStore env store keyword subs).insertedRows.map (fun p => p.id) =
      (subs.map (fun s => "reddit:" ++ s.subId)).filter
        (fun i => ! store.contains i) ∧
    (fetchAndStore env store keyword subs).skipPrints =
      subs.length -
        (fetchAndStore env store keyword subs).insertedRows.length := by
  obtain ⟨h1, h2, h3, h4, h5, h6, h7⟩ :=
    fetchAndStore_success env store keyword subs hem hq hi
  refine ⟨h2, fun r hr => ?_, h3, h5⟩
  rw [h2] at hr
  cases hr

/-- Witness for C1's amended statement at the scenario input. -/
theorem C1_returns_none_counts_printed_witness :
    (fetchAndStore envOk ["reddit:b"] "kw"
      [subOf "a", subOf "b"]).returnValue = none := by
  exact (C1_returns_none_counts_printed envOk ["reddit:b"] "kw"
    [subOf "a", subOf "b"] (fun t => ⟨some [1], rfl⟩) rfl rfl).1

/-- C3: ingestion is idempotent: each record's id is the deterministic
`"reddit:" ++ source_id`, and a second run over the same submissions
against the store left by a successful first run inserts nothing — every
candidate id is already present, so every post is skipped and the store
is unchanged. -/
theorem C3_idempotent (env : Env) (store : List String) (keyword : String)
    (subs : List Submission)
    (hem : ∀ t, ∃ v, env.embed t = Except.ok v)
    (hq : env.queryFails = false) (hi : env.insertFails = false) :
    (∀ s, (mkData keyword s).id = "reddit:" ++ s.subId) ∧
    (fetchAndStore env (fetchAndStore env store keyword subs).store keyword
        subs).insertedRows = [] ∧
    (fetchAndStore env (fetchAndStore env store keyword subs).store keyword
        subs).store = (fetchAndStore env store keyword subs).store ∧
    (fetchAndStore env (fetchAndStore env store keyword subs).store keyword
        subs).skipPrints = subs.length := by
  have run1 := fetchAndStore_success env store keyword subs hem hq hi
  have hsplit : (fetchAndStore env store keyword subs).store =
      store ++ (subs.map (fun s => "reddit:" ++ s.subId)).filter
        (fun i => ! store.contains i) := run1.2.2.2.1
  have run2 := fetchAndStore_success env
    (fetchAndStore env store keyword subs).store keyword subs hem hq hi
  have hmem : ∀ i ∈ subs.map (fun s => "reddit:" ++ s.subId),
      (fetchAndStore env store keyword subs).store.contains i = true := by
    intro i hi2
    rw [hsplit]
    simp only [List.mem_map] at hi2
    simp [List.contains, List.elem_iff, List.mem_append, List.mem_filter]
    tauto
  have hfe : (subs.map (fun s => "reddit:" ++ s.subId)).filter
      (fun i => ! (fetchAndStore env store keyword subs).store.contains i) =
      [] := by
    rw [List.filter_eq_nil_iff]
    intro i hi2
    simpa [List.contains, List.elem_iff] using hmem i hi2
  have hnil : (fetchAndStore env
      (fetchAndStore env store keyword subs).store keyword
      subs).insertedRows = [] := by
    have h3 := run2.2.2.1
    rw [hfe] at h3
    exact List.map_eq_nil_iff.mp h3
  refine ⟨fun s => rfl, hnil, ?_, ?_⟩
  · have h4 := run2.2.2.2.1
    rw [hfe, List.append_nil] at h4
    exact h4
  · have h5 := run2.2.2.2.2.1
    rw [hnil] at h5
    simpa using h5

/-- Witness for C3: a back-to-back run over one post starting from an
empty store inserts nothing the second time. -/
theorem C3_idempotent_witness :
    (fetchAndStore envOk (fetchAndStore envOk [] "kw" [subOf "a"]).store
      "kw" [subOf "a"]).insertedRows = [] := by
  exact (C3_idempotent envOk [] "kw" [subOf "a"]
    (fun t => ⟨some [1], rfl⟩) rfl rfl).2.1

/-- If the embedder raises on some post of the batch, the whole NLP pass
raises (the loop has no handler, so the first failing post aborts it). -/
theorem enrichAll_error_of_mem (env : Env) (ps : List PostRecord)
    (h : ∃ p ∈ ps, ∃ msg,
      env.embed (enrichText p) = Except.error msg) :
    ∃ e, (enrichAll env ps).2 = Except.error e := by
  induction ps with
  | nil => simp at h
  | cons q ps ih =>
    cases hq : env.embed (enrichText q) with
    | error e => exact ⟨e, by simp [enrichAll, hq]⟩
    | ok v =>
      obtain ⟨p, hp, msg, hmsg⟩ := h
      rcases List.mem_cons.mp hp with h1 | h1
      · rw [h1, hq] at hmsg
        cases hmsg
      · obtain ⟨e, he⟩ := ih ⟨p, h1, msg, hmsg⟩
        exact ⟨e, by simp [enrichAll, hq, he, Except.map]⟩

/-- C4 counterexample: with two fetched posts and an embedder whose model
cannot load, `fetch_and_store` raises instead of completing: the run
aborts, no post is deduplicated or inserted, no store access happens. -/
theorem C4_counterexample :
    (fetchAndStore envNoModel [] "kw" [subOf "a", subOf "b"]).outcome =
      IngestOutcome.raised "ModelUnavailable" ∧
    (fetchAndStore envNoModel [] "kw" [subOf "a", subOf "b"]).outcome ≠
      IngestOutcome.returned ∧
    (fetchAndStore envNoModel [] "kw" [subOf "a", subOf "b"]).insertedRows
      = [] ∧
    (fetchAndStore envNoModel [] "kw" [subOf "a", subOf "b"]).existQueries
      = 0 := by
  refine ⟨rfl, ?_, rfl, rfl⟩
  intro hr
  rw [show (fetchAndStore envNoModel [] "kw"
    [subOf "a", subOf "b"]).outcome =
      IngestOutcome.raised "ModelUnavailable" from rfl] at hr
  cases hr

/-- C4 amended: if `embed_text` raises for any post of the batch, the
exception propagates out of `fetch_and_store` before any store access:
no post of the batch — the failing one or any other — is deduplicated or
inserted, and the store is unchanged; the run aborts rather than
completing.  (Only the optional embeddings-table upsert is guarded by a
non-fatal handler.) -/
theorem C4_embed_failure_aborts (env : Env) (store : List String)
    (keyword : String) (subs : List Submission)
    (hbad : ∃ s ∈ subs, ∃ msg,
      env.embed (enrichText (mkData keyword s)) = Except.error msg) :
    (∃ e, (fetchAndStore env store keyword subs).outcome =
      IngestOutcome.raised e) ∧
    (fetchAndStore env store keyword subs).existQueries = 0 ∧
    (fetchAndStore env store keyword subs).insertCalls = 0 ∧
    (fetchAndStore env store keyword subs).insertedRows = [] ∧
    (fetchAndStore env store keyword subs).store = store := by
  cases subs with
  | nil => simp at hbad
  | cons s0 rest =>
    have hmap : ∃ p ∈ (s0 :: rest).map (mkData keyword), ∃ msg,
        env.embed (enrichText p) = Except.error msg := by
      obtain ⟨s, hs, msg, hmsg⟩ := hbad
      exact ⟨mkData keyword s, List.mem_map_of_mem _ hs, msg, hmsg⟩
    obtain ⟨e, he⟩ := enrichAll_error_of_mem env _ hmap
    have hne : ((s0 :: rest).map (mkData keyword)).isEmpty = false := rfl
    simp only [fetchAndStore, hne, Bool.false_eq_true, if_false, he]
    refine ⟨⟨e, ?_⟩, ?_, ?_, ?_, ?_⟩ <;> trivial

/-- Witness for C4's amended statement: one post whose embedder raises
leaves the store untouched. -/
theorem C4_embed_failure_aborts_witness :
    (fetchAndStore envNoModel ["x"] "kw" [subOf "a"]).store = ["x"] := by
  exact (C4_embed_failure_aborts envNoModel ["x"] "kw" [subOf "a"]
    ⟨subOf "a", by simp, "ModelUnavailable", rfl⟩).2.2.2.2

/-- C8 counterexample: with the existence query raising — and likewise
with the insert raising — `fetch_and_store` swallows the failure and
returns normally with value `None`, exactly the value a fully successful
run returns: no structured outcome reaches the caller. -/
theorem C8_counterexample :
    (fetchAndStore envQueryDown [] "kw" [subOf "a"]).outcome =
      IngestOutcome.returned ∧
    (fetchAndStore envQueryDown [] "kw" [subOf "a"]).returnValue = none ∧
    (fetchAndStore envQueryDown [] "kw" [subOf "a"]).store = [] ∧
    (fetchAndStore envInsertDown [] "kw" [subOf "a"]).outcome =
      IngestOutcome.returned ∧
    (fetchAndStore envInsertDown [] "kw" [subOf "a"]).returnValue = none ∧
    (fetchAndStore envInsertDown [] "kw" [subOf "a"]).insertedRows = [] ∧
    (fetchAndStore envOk [] "kw" [subOf "a"]).returnValue = none :=
  ⟨rfl, rfl, rfl, rfl, rfl, rfl, rfl⟩

/-- C8 amended: when the existence query raises during ingestion the
failure is caught inside `fetch_and_store`: one error line is printed,
the write phase is abandoned — nothing inserted, store unchanged — and
the call returns `None` normally, indistinguishable to the caller from a
successful run; no structured error outcome is reported. -/
theorem C8_store_failure_silent (env : Env) (store : List String)
    (keyword : String) (subs : List Submission)
    (hem : ∀ t, ∃ v, env.embed t = Except.ok v)
    (hq : env.queryFails = true) (hne : subs ≠ []) :
    (fetchAndStore env store keyword subs).outcome =
      IngestOutcome.returned ∧
    (fetchAndStore env store keyword subs).returnValue = none ∧
    (fetchAndStore env store keyword subs).errorPrints = 1 ∧
    (fetchAndStore env store keyword subs).insertCalls = 0 ∧
    (fetchAndStore env store keyword subs).insertedRows = [] ∧
    (fetchAndStore env store keyword subs).store = store := by
  cases subs with
  | nil => exact absurd rfl hne
  | cons s0 rest =>
    obtain ⟨qs, hqs, _⟩ :=
      enrichAll_ok env hem ((s0 :: rest).map (mkData keyword))
    have hmt : ((s0 :: rest).map (mkData keyword)).isEmpty = false := rfl
    simp only [fetchAndStore, hmt, Bool.false_eq_true, if_false, hqs, hq,
      if_true]
    refine ⟨?_, ?_, ?_, ?_, ?_, ?_⟩ <;> trivial

/-- Witness for C8's amended statement at a concrete down store. -/
theorem C8_store_failure_silent_witness :
    (fetchAndStore envQueryDown ["x"] "kw" [subOf "a"]).returnValue =
      none := by
  exact (C8_store_failure_silent envQueryDown ["x"] "kw" [subOf "a"]
    (fun t => ⟨some [1], rfl⟩) rfl (by simp)).2.1

/-- C9: a fetch that yields zero posts makes `fetch_and_store` return
immediately: no text is handed to the embedder, no existence query and no
insert is issued, and the persisted state is unchanged. -/
theorem C9_empty_fetch_no_effects (env : Env) (store : List String)
    (keyword : String) :
    fetchAndStore env store keyword [] =
      { outcome := IngestOutcome.returned, returnValue := none,
        existQueries := 0, insertCalls := 0, insertedRows := [],
        store := store, skipPrints := 0, errorPrints := 0,
        embeddedTexts := [] } := rfl

/-- A bucket's mean is absent exactly when the bucket holds no post. -/
theorem bucketMean_eq_none_iff (w : Nat) (ps : List (Nat × Rat)) (b : Nat) :
    bucketMean w ps b = none ↔ bucketVolume w ps b = 0 := by
  unfold bucketMean
  split_ifs with h
  · simp [h]
  · simp [h]

/-- One step of the forward-filled series: the row for the first bucket
carries its mean when it has posts and the running value otherwise, and
the running value handed to the rest is that row's average. -/
theorem ffill_cons (w : Nat) (ps : List (Nat × Rat)) (last : Rat) (b : Nat)
    (bs : List Nat) :
    ffillSeries w ps last (b :: bs) =
      (b, (bucketMean w ps b).getD last, bucketVolume w ps b) ::
        ffillSeries w ps ((bucketMean w ps b).getD last) bs := by
  cases h : bucketMean w ps b with
  | some m => simp [ffillSeries, h]
  | none =>
    have hv := (bucketMean_eq_none_iff w ps b).mp h
    simp [ffillSeries, h, hv]

/-- Every row of the forward-filled series reports its bucket's post
count as volume, and a row with nonzero volume carries its bucket's mean
of the (missing-as-0) scores. -/
theorem ffill_mem (w : Nat) (ps : List (Nat × Rat)) :
    ∀ (bs : List Nat) (last : Rat), ∀ x ∈ ffillSeries w ps last bs,
      x.2.2 = bucketVolume w ps x.1 ∧
      (x.2.2 ≠ 0 →
        x.2.1 = bucketSum w ps x.1 / (bucketVolume w ps x.1 : Rat)) := by
  intro bs
  induction bs with
  | nil => intro last x hx; cases hx
  | cons b bs ih =>
    intro last x hx
    rw [ffill_cons] at hx
    rcases List.mem_cons.mp hx with h1 | hx2
    · subst h1
      refine ⟨rfl, fun hnz => ?_⟩
      have hsome : bucketMean w ps b =
          some (bucketSum w ps b / (bucketVolume w ps b : Rat)) := by
        unfold bucketMean
        rw [if_neg hnz]
      simp [hsome]
    · exact ih _ x hx2

/-- Consecutive rows of the forward-filled series: a row whose bucket is
empty (volume 0) repeats the previous row's average. -/
theorem ffill_chain (w : Nat) (ps : List (Nat × Rat)) :
    ∀ (bs : List Nat) (last : Rat),
      List.Chain' (fun a b : Nat × Rat × Nat => b.2.2 = 0 → b.2.1 = a.2.1)
        (ffillSeries w ps last bs) := by
  intro bs
  induction bs with
  | nil => intro last; exact List.chain'_nil
  | cons b bs ih =>
    intro last
    rw [ffill_cons]
    rw [List.chain'_cons']
    refine ⟨?_, ih _⟩
    intro y hy
    cases bs with
    | nil => cases hy
    | cons b2 bs2 =>
      rw [ffill_cons] at hy
      simp only [List.head?_cons, Option.mem_def, Option.some_inj] at hy
      subst hy
      intro hv0
      have hnone : bucketMean w ps b2 = none :=
        (bucketMean_eq_none_iff w ps b2).mpr hv0
      simp [hnone]

/-- C6: the sentiment timeline buckets posts into 15-minute windows iff
the query window is at most 24 hours and 1-hour windows otherwise; every
row's volume is its bucket's post count, a row with posts carries the
bucket's mean of the scores (missing scores already replaced by 0), a row
whose bucket is empty repeats the previous row's average while reporting
zero volume, and the spec's example — posts at T and T+10min scoring 0.2
and −0.4 inside one 15-minute bucket — averages to −0.1. -/
theorem C6_sentiment_timeline (hours : Nat)
    (posts : List (Nat × Option Rat)) :
    ((hours ≤ 24 → bucketWidth hours = 900) ∧
      (24 < hours → bucketWidth hours = 3600)) ∧
    (∀ row ∈ sentimentTimeline hours posts,
      row.2.2 = bucketVolume (bucketWidth hours) (scoresFilled posts)
        row.1 ∧
      (row.2.2 ≠ 0 →
        row.2.1 = bucketSum (bucketWidth hours) (scoresFilled posts) row.1 /
          (bucketVolume (bucketWidth hours) (scoresFilled posts)
            row.1 : Rat))) ∧
    List.Chain' (fun a b : Nat × Rat × Nat => b.2.2 = 0 → b.2.1 = a.2.1)
      (sentimentTimeline hours posts) ∧
    sentimentTimeline 24
        [(1800, some ((2 : Rat)/10)), (2400, some (-(4 : Rat)/10))] =
      [(2, -(1 : Rat)/10, 2)] := by
  refine ⟨⟨fun h => by simp [bucketWidth, h],
    fun h => by simp [bucketWidth, Nat.not_le.mpr h]⟩, ?_, ?_, ?_⟩
  · intro row hrow
    exact ffill_mem (bucketWidth hours) (scoresFilled posts) _ _ row hrow
  · exact ffill_chain (bucketWidth hours) (scoresFilled posts) _ _
  · norm_num [sentimentTimeline, bucketWidth, scoresFilled, bucketRange,
      List.range', ffillSeries, bucketMean, bucketVolume, bucketPosts,
      bucketSum]

/-- Witness for C6 at concrete windows and posts: the width choice at 24
and 25 hours, and the mean of the example bucket evaluated through the
timeline. -/
theorem C6_sentiment_timeline_witness :
    bucketWidth 24 = 900 ∧ bucketWidth 25 = 3600 ∧
    (-(1 : Rat)/10 =
      bucketSum 900 (scoresFilled
        [(1800, some ((2 : Rat)/10)), (2400, some (-(4 : Rat)/10))]) 2 /
        (bucketVolume 900 (scoresFilled
          [(1800, some ((2 : Rat)/10)), (2400, some (-(4 : Rat)/10))])
          2 : Rat)) := by
  refine ⟨(C6_sentiment_timeline 24 []).1.1 (by norm_num),
    (C6_sentiment_timeline 25 []).1.2 (by norm_num), ?_⟩
  have hex := (C6_sentiment_timeline 24
    [(1800, some ((2 : Rat)/10)), (2400, some (-(4 : Rat)/10))]).2.2.2
  have hrow := (C6_sentiment_timeline 24
    [(1800, some ((2 : Rat)/10)), (2400, some (-(4 : Rat)/10))]).2.1
    (2, -(1 : Rat)/10, 2) (by rw [hex]; exact List.mem_singleton.mpr rfl)
  exact hrow.2 (by norm_num)

/-- C7 counterexample: a post set of size 5 is clustered into
`k = clamp(5 // 10, 2, 6) = 2` clusters; it does not yield the
"insufficient data" report the claim requires. -/
theorem C7_counterexample :
    topicClusters 5 = ClusterReport.clustered 2 ∧
    topicClusters 5 ≠ ClusterReport.insufficient := by
  refine ⟨rfl, ?_⟩
  intro h
  rw [show topicClusters 5 = ClusterReport.clustered 2 from rfl] at h
  cases h

/-- C7 amended: the cluster count `k = clamp(n // 10, 2, 6)` is always at
least 2, so the insufficient-data branch (guarded by `k < 2`) is
unreachable: a nonempty post set with at least 2 posts is clustered into
`k` clusters (5 posts give 2 clusters), a single post ends in the
"Clustering failed" warning (fewer samples than clusters), and no post
count produces the "insufficient data" report. -/
theorem C7_clamped_k_never_insufficient (n : Nat) :
    2 ≤ nClusters n ∧
    topicClusters n ≠ ClusterReport.insufficient ∧
    (2 ≤ n → topicClusters n = ClusterReport.clustered (nClusters n)) ∧
    topicClusters 1 = ClusterReport.failed ∧
    topicClusters 5 = ClusterReport.clustered 2 := by
  have hk : 2 ≤ nClusters n := by
    simp only [nClusters]
    omega
  refine ⟨hk, ?_, ?_, rfl, rfl⟩
  · simp only [topicClusters]
    split_ifs with h0 h1 h2
    · intro h; cases h
    · exact absurd h1 (by omega)
    · intro h; cases h
    · intro h; cases h
  · intro h2n
    have hn0 : ¬ n = 0 := by omega
    have hkn : nClusters n ≤ n := by
      simp only [nClusters]
      have := Nat.div_le_self n 10
      omega
    simp only [topicClusters, if_neg hn0]
    rw [if_neg (by omega), if_neg (by omega)]

/-- Witness for C7's amended statement at the five-post input. -/
theorem C7_clamped_k_never_insufficient_witness :
    topicClusters 5 = ClusterReport.clustered (nClusters 5) := by
  exact (C7_clamped_k_never_insufficient 5).2.2.1 (by norm_num)
